import Mathlib

/-!
Shallow embedding of the bubbler vending-machine controller
(src/routes/machine.rs, src/routes/config.rs, src/scheduler.rs,
src/routes.rs) and proofs about its drop sequencer, latch debounce
worker, realtime priority guard and HTTP route handler.

Hardware responses are supplied by an oracle (`World`): each fallible
hardware call consults the oracle with a per-transaction call index, so a
single transaction can observe different outcomes for successive calls
(e.g. a first de-energize that succeeds and a second that fails).
-/

namespace Bubbler

/-- Models `DropState` from src/routes/machine.rs. -/
inductive DropState
  | Success
deriving DecidableEq, Repr

/-- Models `DropError` from src/routes/machine.rs. -/
inductive DropError
  | MotorFailed
  | MotorTimeout
  | BadSlot
deriving DecidableEq, Repr

/-- Edge direction flags, models `gpio_cdev::EventRequestFlags` as used in
src/routes/machine.rs (only the two edge flags are used). -/
inductive Edge
  | RISING_EDGE
  | FALLING_EDGE
deriving DecidableEq, Repr

/-- Models `SlotConfig` from src/routes/config.rs.  GPIO line handles are
represented by their line offsets (the only attribute the modelled code
reads from them). -/
inductive SlotConfig
  | OWFS (id : String)
  | GPIO (vend : Nat) (stocked : Nat) (cam : Option Nat)
deriving DecidableEq, Repr

/-- Models `ConfigData` from src/routes/config.rs.  The `latch` field of the
source is an `Option<Latch>` whose only use inside `drop` is `latch.open()`;
the model keeps its presence as a `Bool` (the worker itself is modelled
separately by `latchRun`). -/
structure ConfigData where
  temperature_id : String
  slots : List SlotConfig
  latch : Bool
  drop_delay : Nat

/-- Hardware oracle: answers of the physical world to the fallible calls the
code makes.  Fallible calls take the index of the call within the current
transaction, so distinct calls may get distinct answers. -/
structure World where
  /-- `fs::write("/mnt/w1/<id>/PIO", num_state)` succeeds (device id, value
  written, motor-call index). -/
  owfsWriteOk : String → Nat → Nat → Bool
  /-- `vend.set_value(num_state)` succeeds (line offset, value, motor-call
  index). -/
  gpioSetOk : Nat → Nat → Nat → Bool
  /-- The requested edge event arrives within the timeout (line offset, edge,
  timeout in ms, wait-call index). -/
  edgeWithin : Nat → Edge → Nat → Nat → Bool
  /-- `stocked.get_value().unwrap()` (line offset). -/
  gpioGetValue : Nat → Nat
  /-- `fs::File::open("/mnt/w1/<id>/id").is_ok()` (device id). -/
  owfsIdExists : String → Bool

/-- Models `SCHED_FIFO` / `SCHED_OTHER` from src/scheduler.rs. -/
inductive SchedPolicy
  | SCHED_FIFO
  | SCHED_OTHER
deriving DecidableEq, Repr

/-- The process scheduling state set by `sched_setscheduler`. -/
structure SchedState where
  policy : SchedPolicy
  sched_priority : Int
deriving DecidableEq, Repr

/-- Models `RealtimeGuard::set_priority` from src/scheduler.rs: the
scheduling state it installs for `real_time = true/false`.  (The source
treats a failing `sched_setscheduler` as a process abort via `expect`, so
the model takes the call to succeed.) -/
def set_priority (real_time : Bool) : SchedState :=
  { policy := if real_time then SchedPolicy.SCHED_FIFO else SchedPolicy.SCHED_OTHER
    sched_priority := if real_time then 10 else 0 }

/-- The default time-shared scheduling state (`SCHED_OTHER`, priority 0). -/
def defaultSched : SchedState := set_priority false

/-- Observable hardware-facing actions of one drop transaction, in program
order. -/
inductive HwEvent
  | latchOpen
  | rtAcquire
  | rtRelease
  | motorSet (slot : SlotConfig) (value : Nat)
  | edgeWait (line : Nat) (edge : Edge) (timeoutMs : Nat)
  | sleepMs (ms : Nat)
deriving DecidableEq, Repr

/-- Models `run_motor` from src/routes/machine.rs: writes `num_state` to the
slot's vend actuator; an `Err` from the write becomes `MotorFailed`.
`idx` is the motor-call index within the transaction. -/
def run_motor (w : World) (idx : Nat) (slot : SlotConfig) (state : Bool) :
    Except DropError DropState :=
  let num_state : Nat := match state with
    | true => 1
    | false => 0
  let motor_okay : Bool := match slot with
    | SlotConfig.OWFS slot_id => w.owfsWriteOk slot_id num_state idx
    | SlotConfig.GPIO vend _ _ => w.gpioSetOk vend num_state idx
  match motor_okay with
  | false => Except.error DropError.MotorFailed
  | true => Except.ok DropState.Success

/-- Models `wait_until_line_hits_value` from src/routes/machine.rs: an edge
wait on `line` bounded by `timeoutMs`; an elapsed timeout becomes
`MotorTimeout`.  `idx` is the wait-call index within the transaction. -/
def wait_until_line_hits_value (w : World) (idx : Nat) (line : Nat)
    (edge : Edge) (timeoutMs : Nat) : Except DropError Unit :=
  if w.edgeWithin line edge timeoutMs idx then Except.ok ()
  else Except.error DropError.MotorTimeout

/-- Result of one modelled drop transaction: the returned value, the hardware
events performed (in order) and the process scheduling state when the
function returns. -/
structure DropRun where
  result : Except DropError DropState
  events : List HwEvent
  finalSched : SchedState

/-- The body of `drop` from src/routes/machine.rs (lines 137-204) for an
already-validated slot: everything after the `BadSlot` check, from
`latch.open()` to the returned result.  Motor calls are numbered 0
(energize), 1 (first de-energize), 2 (second de-energize, one-wire only);
edge waits are numbered 0 (rising) and 1 (falling). -/
def drop_transaction (w : World) (latch : Bool) (drop_delay : Nat)
    (slot_config : SlotConfig) : DropRun :=
  let latchEvents : List HwEvent := if latch then [HwEvent.latchOpen] else []
  -- let _rt = RealtimeGuard::default();  (sets SCHED_FIFO priority 10)
  let energize := run_motor w 0 slot_config true
  let phase : Except DropError DropState × List HwEvent :=
    match energize, slot_config with
    | Except.error err, _ => (Except.error err, [])
    | Except.ok _, SlotConfig.GPIO _ _ (some cam) =>
      -- the rising-edge wait result is only logged, never used
      let _rising := wait_until_line_hits_value w 0 cam Edge.RISING_EDGE 500
      let falling := wait_until_line_hits_value w 1 cam Edge.FALLING_EDGE 10000
      ((match falling with
        | Except.error err => Except.error err
        | Except.ok _ => Except.ok DropState.Success),
       [HwEvent.edgeWait cam Edge.RISING_EDGE 500,
        HwEvent.edgeWait cam Edge.FALLING_EDGE 10000])
    | Except.ok _, _ => (Except.ok DropState.Success, [HwEvent.sleepMs drop_delay])
  let deenergize := run_motor w 1 slot_config false
  let result2 : Except DropError DropState :=
    match deenergize with
    | Except.error err => Except.error err
    | Except.ok _ => phase.1
  let tail : Except DropError DropState × List HwEvent :=
    match slot_config with
    | SlotConfig.OWFS _ =>
      let deenergize2 := run_motor w 2 slot_config false
      ((match deenergize2 with
        | Except.error err => Except.error err
        | Except.ok _ => result2),
       [HwEvent.sleepMs drop_delay, HwEvent.motorSet slot_config 0])
    | SlotConfig.GPIO _ _ _ => (result2, [])
  -- the RealtimeGuard is dropped when the scope unwinds, on every path,
  -- restoring SCHED_OTHER priority 0
  { result := tail.1
    events := latchEvents ++ [HwEvent.rtAcquire, HwEvent.motorSet slot_config 1]
      ++ phase.2 ++ [HwEvent.motorSet slot_config 0] ++ tail.2 ++ [HwEvent.rtRelease]
    finalSched := set_priority false }

/-- Models `drop` from src/routes/machine.rs, lines 130-205: the `BadSlot`
validation (`slot > config.slots.len() || slot == 0`), then the transaction
body on `config.slots[slot - 1]`.  `sched0` is the process scheduling state
on entry. -/
def drop (w : World) (config : ConfigData) (sched0 : SchedState) (slot : Nat) :
    DropRun :=
  if h : slot > config.slots.length ∨ slot = 0 then
    { result := Except.error DropError.BadSlot, events := [], finalSched := sched0 }
  else
    have hlt : slot - 1 < config.slots.length := by
      push_neg at h
      omega
    drop_transaction w config.latch config.drop_delay (config.slots.get ⟨slot - 1, hlt⟩)

/-- A latch-open request as seen by the debounce worker of
src/routes/config.rs: sent at `arrival` (so it becomes visible to `recv` /
`try_recv` from that time on) carrying the `Instant` `deadline`.  Times are
in milliseconds on a monotonic clock. -/
structure LatchReq where
  arrival : Nat
  deadline : Nat
deriving DecidableEq, Repr

/-- Energize / de-energize actions of the latch worker on its output line. -/
inductive LatchEvent
  | energize
  | deenergize
deriving DecidableEq, Repr

/-- Models the inner `while let Ok(instant) = receiver.try_recv()` loop of
`Latch::new` (src/routes/config.rs lines 56-63): at current time `t`, drain
every request already sent; a stale one (`now > instant`) is skipped, a live
one extends the sleep to its deadline.  Returns the time at which the drain
loop exits together with the requests still unsent at that time.  `reqs` is
the channel content in send order. -/
def latchDrain (t : Nat) (reqs : List LatchReq) : Nat × List LatchReq :=
  match reqs with
  | [] => (t, [])
  | r :: rest =>
    if r.arrival ≤ t then
      if t > r.deadline then latchDrain t rest
      else latchDrain r.deadline rest
    else (t, r :: rest)

/-- Models the worker loop of `Latch::new` (src/routes/config.rs lines
47-66): block for a request, discard it when its deadline has already passed
at receipt, otherwise energize, sleep to the deadline, drain extensions, and
de-energize.  `t` is the current time; `reqs` lists every request ever sent,
in send order.  Returns the timed energize/de-energize trace. -/
def latchRun (t : Nat) (reqs : List LatchReq) : List (Nat × LatchEvent) :=
  match reqs with
  | [] => []
  | r :: rest =>
    -- recv() blocks until the request has been sent
    let now := max t r.arrival
    if now > r.deadline then latchRun now rest
    else
      let drained := latchDrain r.deadline rest
      (now, LatchEvent.energize) :: (drained.1, LatchEvent.deenergize)
        :: latchRun drained.1 drained.2
termination_by reqs.length
decreasing_by
  · simp
  · simp only [List.length_cons]
    have hlen : ∀ (u : Nat) (l : List LatchReq), (latchDrain u l).2.length ≤ l.length := by
      intro u l
      induction l generalizing u with
      | nil => simp [latchDrain]
      | cons a l2 ih =>
        simp only [latchDrain]
        split
        · split
          · exact (ih u).trans (Nat.le_succ _)
          · exact (ih a.deadline).trans (Nat.le_succ _)
        · simp
    exact Nat.lt_succ_of_le (hlen _ _)

/-- Models `SlotStatus` from src/routes/machine.rs. -/
structure SlotStatus where
  id : String
  number : Int
  stocked : Bool
deriving DecidableEq, Repr

/-- Models `impl Display for SlotConfig` (src/routes/config.rs lines 19-36):
the one-wire id, or `"<vend>.<stocked>"` with an optional `".<cam>"`. -/
def slotDisplay : SlotConfig → String
  | SlotConfig.OWFS id => id
  | SlotConfig.GPIO vend stocked cam =>
    toString vend ++ "." ++ toString stocked ++
      (match cam with
        | some c => "." ++ toString c
        | none => "")

/-- Models `is_stocked` from src/routes/machine.rs. -/
def is_stocked (w : World) (slot : SlotConfig) : Bool :=
  match slot with
  | SlotConfig.GPIO _ stocked _ => w.gpioGetValue stocked == 1
  | SlotConfig.OWFS id => w.owfsIdExists id

/-- Models `get_slots` from src/routes/machine.rs lines 60-71: one
`SlotStatus` per configured slot, with `number` taken from `enumerate()`. -/
def get_slots (w : World) (config : ConfigData) : List SlotStatus :=
  config.slots.enum.map fun p =>
    { id := slotDisplay p.2
      number := (p.1 : Int)
      stocked := is_stocked w p.2 }

/-- Observable actions of the HTTP drop handler: taking and releasing the
process-wide configuration lock, the hardware actions of the transaction,
and the response. -/
inductive RouteEvent
  | lockAcquire
  | lockRelease
  | hw (e : HwEvent)
  | respond (code : Nat)
deriving DecidableEq, Repr

/-- Models the `#[post("/drop")]` handler of src/routes.rs lines 39-64: the
configuration mutex guard is taken, `machine::drop` runs to completion while
the guard is alive, the guard is dropped at the end of the block, and the
response is produced from the result. -/
def route_drop (w : World) (config : ConfigData) (sched0 : SchedState)
    (slot : Nat) : List RouteEvent :=
  let run := drop w config sched0 slot
  let code : Nat := match run.result with
    | Except.ok _ => 200
    | Except.error DropError.BadSlot => 400
    | Except.error _ => 500
  RouteEvent.lockAcquire
    :: (run.events.map RouteEvent.hw
        ++ [RouteEvent.lockRelease, RouteEvent.respond code])

/-- The events of a trace that occur while the configuration lock is held:
those strictly between the `lockAcquire` and the following `lockRelease`. -/
def heldSection (tr : List RouteEvent) : List RouteEvent :=
  ((tr.dropWhile fun e => !(decide (e = RouteEvent.lockAcquire))).drop 1).takeWhile
    fun e => !(decide (e = RouteEvent.lockRelease))

/-- Whether a route event is a motor-facing actuation (a vend-line write). -/
def isMotorEvent : RouteEvent → Bool
  | RouteEvent.hw (HwEvent.motorSet _ _) => true
  | _ => false

/-- Whether a slot descriptor is a GPIO slot with a rotation sensor. -/
def hasCam : SlotConfig → Bool
  | SlotConfig.GPIO _ _ (some _) => true
  | _ => false

instance {ε α : Type} [DecidableEq ε] [DecidableEq α] :
    DecidableEq (Except ε α) := fun a b =>
  match a, b with
  | Except.ok x, Except.ok y =>
    if h : x = y then isTrue (by rw [h]) else isFalse (by simp [h])
  | Except.error x, Except.error y =>
    if h : x = y then isTrue (by rw [h]) else isFalse (by simp [h])
  | Except.ok _, Except.error _ => isFalse (by simp)
  | Except.error _, Except.ok _ => isFalse (by simp)

/-! Concrete worlds and configurations used to witness the theorems below. -/

/-- A world in which every hardware call succeeds, every awaited edge
arrives in time, every stocked line reads 1 and every one-wire id file
exists. -/
def allOkWorld : World :=
  { owfsWriteOk := fun _ _ _ => true
    gpioSetOk := fun _ _ _ => true
    edgeWithin := fun _ _ _ _ => true
    gpioGetValue := fun _ => 1
    owfsIdExists := fun _ => true }

/-- A sample one-wire device id. -/
def owfsSlotId : String := "2800000ab0cd"

/-- A configuration with a single one-wire slot and no latch. -/
def cfgOwfs : ConfigData :=
  { temperature_id := ""
    slots := [ SlotConfig.OWFS owfsSlotId]
    latch := false
    drop_delay := 300 }

/-- A configuration with a single rotation-sensored GPIO slot and a latch. -/
def cfgCam : ConfigData :=
  { temperature_id := ""
    slots := [ SlotConfig.GPIO 5 6 (some 7)]
    latch := true
    drop_delay := 300 }

/-- A configuration with a single GPIO slot without rotation sensor. -/
def cfgGpioPlain : ConfigData :=
  { temperature_id := ""
    slots := [ SlotConfig.GPIO 5 6 none]
    latch := false
    drop_delay := 300 }

/-- A mixed configuration, as the loader produces when `BUB_CAM_PINS` is
shorter than the other pin lists (the leftover slots get `cam = None`) or
when modes are mixed: slot 1 has a rotation sensor, slot 2 is a plain GPIO
slot, slot 3 is one-wire. -/
def cfgMixed : ConfigData :=
  { temperature_id := ""
    slots := [ SlotConfig.GPIO 5 6 (some 7), SlotConfig.GPIO 8 9 none,
               SlotConfig.OWFS owfsSlotId]
    latch := false
    drop_delay := 300 }

/-- Like `allOkWorld` but no falling edge ever arrives (the motor never
stops rotating); rising edges still arrive. -/
def noFallingWorld : World :=
  { allOkWorld with edgeWithin := fun _ e _ _ => e == Edge.RISING_EDGE }

/-- Like `allOkWorld` but no edge ever arrives within its timeout. -/
def noEdgeWorld : World :=
  { allOkWorld with edgeWithin := fun _ _ _ _ => false }

/-- Like `allOkWorld` but only falling edges arrive in time: the rising-edge
wait always times out while the falling-edge wait succeeds. -/
def onlyFallingWorld : World :=
  { allOkWorld with edgeWithin := fun _ e _ _ => e == Edge.FALLING_EDGE }

/-- Like `allOkWorld` but the third motor call of the transaction (index 2,
the one-wire second de-energize) fails; calls 0 and 1 succeed. -/
def secondDeenergizeFailWorld : World :=
  { allOkWorld with owfsWriteOk := fun _ _ idx => idx != 2 }

/-- Like `allOkWorld` but motor call 1 (the first de-energize) fails. -/
def firstDeenergizeFailWorld : World :=
  { allOkWorld with
    owfsWriteOk := fun _ _ idx => idx != 1
    gpioSetOk := fun _ _ idx => idx != 1 }

/-! ## Characterization of the drop sequencer, one lemma per slot variant -/

theorem drop_transaction_owfs (w : World) (latch : Bool) (delay : Nat) (id : String) :
    drop_transaction w latch delay ( SlotConfig.OWFS id)
      = { result :=
            if w.owfsWriteOk id 0 2 then
              if w.owfsWriteOk id 0 1 then
                if w.owfsWriteOk id 1 0 then Except.ok DropState.Success
                else Except.error DropError.MotorFailed
              else Except.error DropError.MotorFailed
            else Except.error DropError.MotorFailed
          events := (if latch then [HwEvent.latchOpen] else [])
            ++ [HwEvent.rtAcquire, HwEvent.motorSet ( SlotConfig.OWFS id) 1]
            ++ (if w.owfsWriteOk id 1 0 then [HwEvent.sleepMs delay] else [])
            ++ [HwEvent.motorSet ( SlotConfig.OWFS id) 0,
                HwEvent.sleepMs delay, HwEvent.motorSet ( SlotConfig.OWFS id) 0,
                HwEvent.rtRelease]
          finalSched := set_priority false } := by
  simp only [drop_transaction, run_motor]
  cases h0 : w.owfsWriteOk id 1 0 <;> cases h1 : w.owfsWriteOk id 0 1 <;>
    cases h2 : w.owfsWriteOk id 0 2 <;> simp [h0, h1, h2]

theorem drop_transaction_gpio_nocam (w : World) (latch : Bool) (delay : Nat) (v s : Nat) :
    drop_transaction w latch delay ( SlotConfig.GPIO v s none)
      = { result :=
            if w.gpioSetOk v 0 1 then
              if w.gpioSetOk v 1 0 then Except.ok DropState.Success
              else Except.error DropError.MotorFailed
            else Except.error DropError.MotorFailed
          events := (if latch then [HwEvent.latchOpen] else [])
            ++ [HwEvent.rtAcquire, HwEvent.motorSet ( SlotConfig.GPIO v s none) 1]
            ++ (if w.gpioSetOk v 1 0 then [HwEvent.sleepMs delay] else [])
            ++ [HwEvent.motorSet ( SlotConfig.GPIO v s none) 0, HwEvent.rtRelease]
          finalSched := set_priority false } := by
  simp only [drop_transaction, run_motor]
  cases h0 : w.gpioSetOk v 1 0 <;> cases h1 : w.gpioSetOk v 0 1 <;> simp [h0, h1]

theorem drop_transaction_gpio_cam (w : World) (latch : Bool) (delay : Nat) (v s c : Nat) :
    drop_transaction w latch delay ( SlotConfig.GPIO v s (some c))
      = { result :=
            if w.gpioSetOk v 0 1 then
              if w.gpioSetOk v 1 0 then
                if w.edgeWithin c Edge.FALLING_EDGE 10000 1 then Except.ok DropState.Success
                else Except.error DropError.MotorTimeout
              else Except.error DropError.MotorFailed
            else Except.error DropError.MotorFailed
          events := (if latch then [HwEvent.latchOpen] else [])
            ++ [HwEvent.rtAcquire, HwEvent.motorSet ( SlotConfig.GPIO v s (some c)) 1]
            ++ (if w.gpioSetOk v 1 0 then
                  [HwEvent.edgeWait c Edge.RISING_EDGE 500,
                   HwEvent.edgeWait c Edge.FALLING_EDGE 10000]
                else [])
            ++ [HwEvent.motorSet ( SlotConfig.GPIO v s (some c)) 0, HwEvent.rtRelease]
          finalSched := set_priority false } := by
  simp only [drop_transaction, run_motor, wait_until_line_hits_value]
  cases h0 : w.gpioSetOk v 1 0 <;> cases h1 : w.gpioSetOk v 0 1 <;>
    cases h2 : w.edgeWithin c Edge.FALLING_EDGE 10000 1 <;> simp [h0, h1, h2]

theorem drop_valid_eq (w : World) (config : ConfigData) (sched0 : SchedState)
    (slot : Nat) (hlt : slot - 1 < config.slots.length) (h0 : slot ≠ 0) :
    drop w config sched0 slot
      = drop_transaction w config.latch config.drop_delay
          (config.slots.get ⟨slot - 1, hlt⟩) := by
  unfold drop
  rw [dif_neg (by omega)]

/-! ## Claim theorems -/

/-- C1: for every `slot` outside `[1, slotCount]` (`slot = 0` or
`slot > slotCount`), `drop` returns `BadSlot` immediately with an empty
hardware trace — no motor actuation, no latch-open request, no realtime
priority guard acquisition — and with the scheduling state untouched. -/
theorem drop_bad_slot_no_hardware (w : World) (config : ConfigData)
    (sched0 : SchedState) (slot : Nat)
    (h : slot = 0 ∨ slot > config.slots.length) :
    drop w config sched0 slot
      = { result := Except.error DropError.BadSlot, events := [],
          finalSched := sched0 } := by
  unfold drop
  rw [dif_pos h.symm]

/-- Witness for `drop_bad_slot_no_hardware` at `slot = 0`. -/
theorem drop_bad_slot_no_hardware_witness :
    drop allOkWorld cfgOwfs defaultSched 0
      = { result := Except.error DropError.BadSlot, events := [],
          finalSched := defaultSched } :=
  drop_bad_slot_no_hardware allOkWorld cfgOwfs defaultSched 0 (Or.inl rfl)

/-- C2: on a valid GPIO slot with rotation sensor whose energize succeeded,
the sequencer performs the 500 ms rising-edge wait first and the 10 s
falling-edge wait second; a rising timeout is non-fatal (the result is
`Success` whenever the falling edge is seen and de-energize succeeds,
regardless of the rising wait), while a falling timeout makes the result
`MotorTimeout` even though energize succeeded. -/
theorem drop_cam_wait_semantics (w : World) (config : ConfigData)
    (sched0 : SchedState) (slot v s c : Nat)
    (hlt : slot - 1 < config.slots.length) (h0 : slot ≠ 0)
    (hsc : config.slots.get ⟨slot - 1, hlt⟩ = SlotConfig.GPIO v s (some c))
    (hen : w.gpioSetOk v 1 0 = true) :
    (∃ pre post, (drop w config sched0 slot).events
        = pre ++ [HwEvent.edgeWait c Edge.RISING_EDGE 500,
                  HwEvent.edgeWait c Edge.FALLING_EDGE 10000] ++ post)
    ∧ (w.edgeWithin c Edge.FALLING_EDGE 10000 1 = true →
        w.gpioSetOk v 0 1 = true →
        (drop w config sched0 slot).result = Except.ok DropState.Success)
    ∧ (w.edgeWithin c Edge.FALLING_EDGE 10000 1 = false →
        w.gpioSetOk v 0 1 = true →
        (drop w config sched0 slot).result
          = Except.error DropError.MotorTimeout) := by
  rw [drop_valid_eq w config sched0 slot hlt h0, hsc, drop_transaction_gpio_cam]
  refine ⟨⟨(if config.latch then [HwEvent.latchOpen] else [])
      ++ [HwEvent.rtAcquire, HwEvent.motorSet ( SlotConfig.GPIO v s (some c)) 1],
      [HwEvent.motorSet ( SlotConfig.GPIO v s (some c)) 0, HwEvent.rtRelease],
      by simp [hen]⟩, ?_, ?_⟩
  · intro hf hd
    simp [hen, hf, hd]
  · intro hf hd
    simp [hen, hf, hd]

/-- Witness for `drop_cam_wait_semantics`: in `onlyFallingWorld` the rising
wait times out yet the drop succeeds; in `noEdgeWorld` the falling wait
times out and the drop reports `MotorTimeout`. -/
theorem drop_cam_wait_semantics_witness :
    (drop onlyFallingWorld cfgCam defaultSched 1).result
        = Except.ok DropState.Success
    ∧ (drop noEdgeWorld cfgCam defaultSched 1).result
        = Except.error DropError.MotorTimeout :=
  ⟨(drop_cam_wait_semantics onlyFallingWorld cfgCam defaultSched 1 5 6 7
      (by decide) (by decide) (by decide) (by decide)).2.1 (by decide) (by decide),
   (drop_cam_wait_semantics noEdgeWorld cfgCam defaultSched 1 5 6 7
      (by decide) (by decide) (by decide) (by decide)).2.2 (by decide) (by decide)⟩

/-- C4: on a valid one-wire slot the vend actuator is de-energized twice,
with a configured-delay hold before the second attempt; a failure of the
second de-energize is returned as the final outcome no matter what any
earlier step did, so a successful first de-energize followed by a failed
second one yields that failure, never `Success`. -/
theorem drop_owfs_two_deenergizes (w : World) (config : ConfigData)
    (sched0 : SchedState) (slot : Nat) (id : String)
    (hlt : slot - 1 < config.slots.length) (h0 : slot ≠ 0)
    (hsc : config.slots.get ⟨slot - 1, hlt⟩ = SlotConfig.OWFS id) :
    (∃ pre, (drop w config sched0 slot).events
        = pre ++ [HwEvent.motorSet ( SlotConfig.OWFS id) 0,
                  HwEvent.sleepMs config.drop_delay,
                  HwEvent.motorSet ( SlotConfig.OWFS id) 0,
                  HwEvent.rtRelease])
    ∧ (drop w config sched0 slot).events.count
        (HwEvent.motorSet ( SlotConfig.OWFS id) 0) = 2
    ∧ (w.owfsWriteOk id 0 2 = false →
        (drop w config sched0 slot).result = Except.error DropError.MotorFailed)
    ∧ (w.owfsWriteOk id 0 1 = true → w.owfsWriteOk id 0 2 = false →
        (drop w config sched0 slot).result = Except.error DropError.MotorFailed
        ∧ (drop w config sched0 slot).result ≠ Except.ok DropState.Success) := by
  rw [drop_valid_eq w config sched0 slot hlt h0, hsc, drop_transaction_owfs]
  refine ⟨⟨(if config.latch then [HwEvent.latchOpen] else [])
      ++ [HwEvent.rtAcquire, HwEvent.motorSet ( SlotConfig.OWFS id) 1]
      ++ (if w.owfsWriteOk id 1 0 then [HwEvent.sleepMs config.drop_delay] else []),
      by simp⟩, ?_, ?_, ?_⟩
  · cases hl : config.latch <;> cases he : w.owfsWriteOk id 1 0 <;>
      simp [hl, he, List.count_append, List.count_cons]
  · intro h2
    simp [h2]
  · intro h1 h2
    simp [h1, h2]

/-- Witness for `drop_owfs_two_deenergizes`: with the third motor call (the
second de-energize) failing, `drop` on the one-wire slot reports
`MotorFailed` although the first de-energize succeeded. -/
theorem drop_owfs_two_deenergizes_witness :
    (drop secondDeenergizeFailWorld cfgOwfs defaultSched 1).result
        = Except.error DropError.MotorFailed
    ∧ (drop secondDeenergizeFailWorld cfgOwfs defaultSched 1).events.count
        (HwEvent.motorSet ( SlotConfig.OWFS owfsSlotId) 0) = 2 :=
  ⟨((drop_owfs_two_deenergizes secondDeenergizeFailWorld cfgOwfs defaultSched 1
      owfsSlotId (by decide) (by decide) (by decide)).2.2.2 (by decide) (by decide)).1,
   (drop_owfs_two_deenergizes secondDeenergizeFailWorld cfgOwfs defaultSched 1
      owfsSlotId (by decide) (by decide) (by decide)).2.1⟩

/-- C10: `MotorTimeout` arises only from the falling-edge wait of a rotation
sensor: every drop addressing a valid slot that is one-wire or GPIO without
a rotation sensor never returns `MotorTimeout` — its result is `Success` or
`MotorFailed` — whatever the other slots of the configuration are (in
particular in a mixed configuration where other slots do have rotation
sensors).  The claim's third allowed outcome, `BadSlot`, occurs exactly on
the validation path for invalid indices, where no slot is addressed. -/
theorem drop_no_timeout_without_cam (w : World) (config : ConfigData)
    (sched0 : SchedState) (slot : Nat)
    (hlt : slot - 1 < config.slots.length) (h0 : slot ≠ 0)
    (hnc : hasCam (config.slots.get ⟨slot - 1, hlt⟩) = false) :
    (drop w config sched0 slot).result ≠ Except.error DropError.MotorTimeout
    ∧ ((drop w config sched0 slot).result = Except.ok DropState.Success
       ∨ (drop w config sched0 slot).result
           = Except.error DropError.MotorFailed) := by
  rw [drop_valid_eq w config sched0 slot hlt h0]
  rcases hsc : config.slots.get ⟨slot - 1, hlt⟩ with id | ⟨v, s, cam⟩
  · rw [drop_transaction_owfs]
    constructor
    · cases hb0 : w.owfsWriteOk id 1 0 <;> cases h1 : w.owfsWriteOk id 0 1 <;>
        cases h2 : w.owfsWriteOk id 0 2 <;> simp [hb0, h1, h2]
    · cases hb0 : w.owfsWriteOk id 1 0 <;> cases h1 : w.owfsWriteOk id 0 1 <;>
        cases h2 : w.owfsWriteOk id 0 2 <;> simp [hb0, h1, h2]
  · rcases cam with _ | c
    · rw [drop_transaction_gpio_nocam]
      constructor
      · cases hb0 : w.gpioSetOk v 1 0 <;> cases h1 : w.gpioSetOk v 0 1 <;>
          simp [hb0, h1]
      · cases hb0 : w.gpioSetOk v 1 0 <;> cases h1 : w.gpioSetOk v 0 1 <;>
          simp [hb0, h1]
    · rw [hsc] at hnc
      simp [hasCam] at hnc

/-- Witness for `drop_no_timeout_without_cam`: in the mixed configuration,
with no edge ever arriving, drops on the plain GPIO slot (2) and on the
one-wire slot (3) do not time out, although a drop on the cam slot (1) in
the same configuration and world does. -/
theorem drop_no_timeout_without_cam_witness :
    ((drop noEdgeWorld cfgMixed defaultSched 2).result
        ≠ Except.error DropError.MotorTimeout
      ∧ (drop noEdgeWorld cfgMixed defaultSched 2).result
          = Except.ok DropState.Success)
    ∧ ((drop noEdgeWorld cfgMixed defaultSched 3).result
        ≠ Except.error DropError.MotorTimeout
      ∧ (drop noEdgeWorld cfgMixed defaultSched 3).result
          = Except.ok DropState.Success)
    ∧ (drop noEdgeWorld cfgMixed defaultSched 1).result
        = Except.error DropError.MotorTimeout :=
  ⟨⟨(drop_no_timeout_without_cam noEdgeWorld cfgMixed defaultSched 2
      (by decide) (by decide) (by decide)).1, by rfl⟩,
   ⟨(drop_no_timeout_without_cam noEdgeWorld cfgMixed defaultSched 3
      (by decide) (by decide) (by decide)).1, by rfl⟩,
   by rfl⟩

/-- C3: in every drop transaction on a valid slot the energize happens
exactly once and the first de-energize of the vend actuator comes after it;
a failing first de-energize makes the final result `MotorFailed` even when
everything before it succeeded, and the transaction returns `Success` only
if both the energize and this de-energize succeeded.  For a GPIO slot the
de-energize is issued exactly once. -/
theorem drop_first_deenergize_priority (w : World) (config : ConfigData)
    (sched0 : SchedState) (slot : Nat) (sc : SlotConfig)
    (hlt : slot - 1 < config.slots.length) (h0 : slot ≠ 0)
    (hsc : config.slots.get ⟨slot - 1, hlt⟩ = sc) :
    (∃ l1 l2, (drop w config sched0 slot).events
        = l1 ++ HwEvent.motorSet sc 1 :: l2
        ∧ (drop w config sched0 slot).events.count (HwEvent.motorSet sc 1) = 1
        ∧ HwEvent.motorSet sc 0 ∉ l1 ∧ HwEvent.motorSet sc 0 ∈ l2)
    ∧ (run_motor w 1 sc false = Except.error DropError.MotorFailed →
        (drop w config sched0 slot).result = Except.error DropError.MotorFailed)
    ∧ ((drop w config sched0 slot).result = Except.ok DropState.Success →
        run_motor w 0 sc true = Except.ok DropState.Success
        ∧ run_motor w 1 sc false = Except.ok DropState.Success)
    ∧ (∀ v s cam, sc = SlotConfig.GPIO v s cam →
        (drop w config sched0 slot).events.count (HwEvent.motorSet sc 0) = 1) := by
  rw [drop_valid_eq w config sched0 slot hlt h0, hsc]
  rcases sc with id | ⟨v, s, cam⟩
  · rw [drop_transaction_owfs]
    refine ⟨⟨(if config.latch then [HwEvent.latchOpen] else []) ++ [HwEvent.rtAcquire],
        (if w.owfsWriteOk id 1 0 then [HwEvent.sleepMs config.drop_delay] else [])
          ++ [HwEvent.motorSet ( SlotConfig.OWFS id) 0,
              HwEvent.sleepMs config.drop_delay,
              HwEvent.motorSet ( SlotConfig.OWFS id) 0, HwEvent.rtRelease],
        ?_, ?_, ?_, ?_⟩, ?_, ?_, ?_⟩
    · simp
    · cases hl : config.latch <;> cases he : w.owfsWriteOk id 1 0 <;>
        simp [hl, he, List.count_append, List.count_cons]
    · cases hl : config.latch <;> simp [hl]
    · cases he : w.owfsWriteOk id 1 0 <;> simp [he]
    · intro hde
      cases h1 : w.owfsWriteOk id 0 1
      · cases h2 : w.owfsWriteOk id 0 2 <;> simp [h1, h2]
      · simp [run_motor, h1] at hde
    · intro hres
      cases hb0 : w.owfsWriteOk id 1 0 <;> cases h1 : w.owfsWriteOk id 0 1 <;>
        cases h2 : w.owfsWriteOk id 0 2 <;>
          simp [hb0, h1, h2] at hres ⊢ <;> simp [run_motor, hb0, h1]
    · intro v s cam heq
      simp at heq
  · rcases cam with _ | c
    · rw [drop_transaction_gpio_nocam]
      refine ⟨⟨(if config.latch then [HwEvent.latchOpen] else []) ++ [HwEvent.rtAcquire],
          (if w.gpioSetOk v 1 0 then [HwEvent.sleepMs config.drop_delay] else [])
            ++ [HwEvent.motorSet ( SlotConfig.GPIO v s none) 0, HwEvent.rtRelease],
          ?_, ?_, ?_, ?_⟩, ?_, ?_, ?_⟩
      · simp
      · cases hl : config.latch <;> cases he : w.gpioSetOk v 1 0 <;>
          simp [hl, he, List.count_append, List.count_cons]
      · cases hl : config.latch <;> simp [hl]
      · cases he : w.gpioSetOk v 1 0 <;> simp [he]
      · intro hde
        cases h1 : w.gpioSetOk v 0 1
        · simp [h1]
        · simp [run_motor, h1] at hde
      · intro hres
        cases hb0 : w.gpioSetOk v 1 0 <;> cases h1 : w.gpioSetOk v 0 1 <;>
          simp [hb0, h1] at hres ⊢ <;> simp [run_motor, hb0, h1]
      · intro v2 s2 cam2 heq
        cases hl : config.latch <;> cases he : w.gpioSetOk v 1 0 <;>
          simp [hl, he, List.count_append, List.count_cons]
    · rw [drop_transaction_gpio_cam]
      refine ⟨⟨(if config.latch then [HwEvent.latchOpen] else []) ++ [HwEvent.rtAcquire],
          (if w.gpioSetOk v 1 0 then
              [HwEvent.edgeWait c Edge.RISING_EDGE 500,
               HwEvent.edgeWait c Edge.FALLING_EDGE 10000]
            else [])
            ++ [HwEvent.motorSet ( SlotConfig.GPIO v s (some c)) 0, HwEvent.rtRelease],
          ?_, ?_, ?_, ?_⟩, ?_, ?_, ?_⟩
      · simp
      · cases hl : config.latch <;> cases he : w.gpioSetOk v 1 0 <;>
          simp [hl, he, List.count_append, List.count_cons]
      · cases hl : config.latch <;> simp [hl]
      · cases he : w.gpioSetOk v 1 0 <;> simp [he]
      · intro hde
        cases h1 : w.gpioSetOk v 0 1
        · cases hf : w.edgeWithin c Edge.FALLING_EDGE 10000 1 <;> simp [h1, hf]
        · simp [run_motor, h1] at hde
      · intro hres
        cases hb0 : w.gpioSetOk v 1 0 <;> cases h1 : w.gpioSetOk v 0 1 <;>
          cases hf : w.edgeWithin c Edge.FALLING_EDGE 10000 1 <;>
            simp [hb0, h1, hf] at hres ⊢ <;> simp [run_motor, hb0, h1]
      · intro v2 s2 cam2 heq
        cases hl : config.latch <;> cases he : w.gpioSetOk v 1 0 <;>
          simp [hl, he, List.count_append, List.count_cons]

/-- Witness for `drop_first_deenergize_priority`: on a plain GPIO slot with
a failing first de-energize the drop reports `MotorFailed`. -/
theorem drop_first_deenergize_priority_witness :
    (drop firstDeenergizeFailWorld cfgGpioPlain defaultSched 1).result
      = Except.error DropError.MotorFailed :=
  (drop_first_deenergize_priority firstDeenergizeFailWorld cfgGpioPlain
      defaultSched 1 ( SlotConfig.GPIO 5 6 none) (by decide) (by decide)
      (by decide)).2.1 (by decide)

/-- C6: the realtime priority guard's effect is scoped to the transaction:
starting from the default time-shared scheduling state, after any `drop`
(any outcome, any exit path) the scheduling state equals the one observed
before; on every validated transaction the guard is acquired exactly once
and its release is the very last hardware-facing action. -/
theorem drop_restores_scheduling (w : World) (config : ConfigData)
    (sched0 : SchedState) (slot : Nat) (h0 : sched0 = defaultSched) :
    (drop w config sched0 slot).finalSched = sched0
    ∧ (∀ (hlt : slot - 1 < config.slots.length), slot ≠ 0 →
        (drop w config sched0 slot).events.count HwEvent.rtAcquire = 1
        ∧ ∃ pre, (drop w config sched0 slot).events = pre ++ [HwEvent.rtRelease]
            ∧ HwEvent.rtRelease ∉ pre) := by
  constructor
  · by_cases h : slot > config.slots.length ∨ slot = 0
    · unfold drop
      rw [dif_pos h]
    · have hlt : slot - 1 < config.slots.length := by
        push_neg at h
        omega
      rw [drop_valid_eq w config sched0 slot hlt (by omega), h0]
      simp [drop_transaction, defaultSched]
  · intro hlt hs0
    rw [drop_valid_eq w config sched0 slot hlt hs0]
    rcases hsc : config.slots.get ⟨slot - 1, hlt⟩ with id | ⟨v, s, cam⟩
    · rw [drop_transaction_owfs]
      constructor
      · cases hl : config.latch <;> cases he : w.owfsWriteOk id 1 0 <;>
          simp [hl, he, List.count_append, List.count_cons]
      · refine ⟨(if config.latch then [HwEvent.latchOpen] else [])
            ++ [HwEvent.rtAcquire, HwEvent.motorSet ( SlotConfig.OWFS id) 1]
            ++ (if w.owfsWriteOk id 1 0 then [HwEvent.sleepMs config.drop_delay] else [])
            ++ [HwEvent.motorSet ( SlotConfig.OWFS id) 0,
                HwEvent.sleepMs config.drop_delay,
                HwEvent.motorSet ( SlotConfig.OWFS id) 0], ?_, ?_⟩
        · simp
        · cases hl : config.latch <;> cases he : w.owfsWriteOk id 1 0 <;>
            simp [hl, he]
    · rcases cam with _ | c
      · rw [drop_transaction_gpio_nocam]
        constructor
        · cases hl : config.latch <;> cases he : w.gpioSetOk v 1 0 <;>
            simp [hl, he, List.count_append, List.count_cons]
        · refine ⟨(if config.latch then [HwEvent.latchOpen] else [])
              ++ [HwEvent.rtAcquire, HwEvent.motorSet ( SlotConfig.GPIO v s none) 1]
              ++ (if w.gpioSetOk v 1 0 then [HwEvent.sleepMs config.drop_delay] else [])
              ++ [HwEvent.motorSet ( SlotConfig.GPIO v s none) 0], ?_, ?_⟩
          · simp
          · cases hl : config.latch <;> cases he : w.gpioSetOk v 1 0 <;>
              simp [hl, he]
      · rw [drop_transaction_gpio_cam]
        constructor
        · cases hl : config.latch <;> cases he : w.gpioSetOk v 1 0 <;>
            simp [hl, he, List.count_append, List.count_cons]
        · refine ⟨(if config.latch then [HwEvent.latchOpen] else [])
              ++ [HwEvent.rtAcquire, HwEvent.motorSet ( SlotConfig.GPIO v s (some c)) 1]
              ++ (if w.gpioSetOk v 1 0 then
                    [HwEvent.edgeWait c Edge.RISING_EDGE 500,
                     HwEvent.edgeWait c Edge.FALLING_EDGE 10000]
                  else [])
              ++ [HwEvent.motorSet ( SlotConfig.GPIO v s (some c)) 0], ?_, ?_⟩
          · simp
          · cases hl : config.latch <;> cases he : w.gpioSetOk v 1 0 <;>
              simp [hl, he]

/-- Witness for `drop_restores_scheduling`: a failing transaction (falling
edge never arrives) still ends in the scheduling state it began with. -/
theorem drop_restores_scheduling_witness :
    (drop noEdgeWorld cfgCam defaultSched 1).finalSched = defaultSched
    ∧ (drop noEdgeWorld cfgCam defaultSched 1).events.count HwEvent.rtAcquire = 1 :=
  ⟨(drop_restores_scheduling noEdgeWorld cfgCam defaultSched 1 rfl).1,
   ((drop_restores_scheduling noEdgeWorld cfgCam defaultSched 1 rfl).2
      (by decide) (by decide)).1⟩

theorem latchDrain_chain (r : LatchReq) (rest : List LatchReq)
    (h : List.Chain' (fun x y => y.arrival ≤ x.deadline ∧ x.deadline ≤ y.deadline)
      (r :: rest)) :
    latchDrain r.deadline rest = ((rest.getLastD r).deadline, []) := by
  induction rest generalizing r with
  | nil => simp [latchDrain]
  | cons a l ih =>
    rw [List.chain'_cons] at h
    simp only [latchDrain]
    rw [if_pos h.1.1, if_neg (by omega), List.getLastD_cons]
    exact ih a h.2

/-- C5: two open requests with deadlines `T1 < T2`, the second sent while
the first had not yet elapsed, produce exactly one energize and one
de-energize: the worker energizes once when it receives the first request
and de-energizes exactly at `T2` — at or after `T2`, never in the interval
between `T1` and `T2` — keeping the line energized continuously across the
overlapping requests.  More generally, any chain of open requests in which
each request arrives before the previous deadline elapses (with deadlines
nondecreasing, as `Latch::open` produces them) yields exactly one energize,
at receipt of the first request, and one de-energize, exactly at the last
deadline. -/
theorem latch_coalesces_pair (t0 a1 T1 a2 T2 : Nat)
    (h1 : max t0 a1 ≤ T1) (h12 : T1 < T2) (ha : a2 ≤ T1) :
    latchRun t0 [⟨a1, T1⟩, ⟨a2, T2⟩]
      = [(max t0 a1, LatchEvent.energize), (T2, LatchEvent.deenergize)]
    ∧ ∀ (r : LatchReq) (rest : List LatchReq),
        List.Chain' (fun x y => y.arrival ≤ x.deadline ∧ x.deadline ≤ y.deadline)
          (r :: rest) →
        max t0 r.arrival ≤ r.deadline →
        latchRun t0 (r :: rest)
          = [(max t0 r.arrival, LatchEvent.energize),
             ((rest.getLastD r).deadline, LatchEvent.deenergize)] := by
  have general : ∀ (r : LatchReq) (rest : List LatchReq),
      List.Chain' (fun x y => y.arrival ≤ x.deadline ∧ x.deadline ≤ y.deadline)
        (r :: rest) →
      max t0 r.arrival ≤ r.deadline →
      latchRun t0 (r :: rest)
        = [(max t0 r.arrival, LatchEvent.energize),
           ((rest.getLastD r).deadline, LatchEvent.deenergize)] := by
    intro r rest hchain hfresh
    rw [latchRun, if_neg (by omega)]
    simp [latchDrain_chain r rest hchain, latchRun]
  refine ⟨?_, general⟩
  have h := general ⟨a1, T1⟩ [⟨a2, T2⟩]
    (List.chain'_pair.mpr (by constructor <;> simpa using by omega))
    (by simpa using h1)
  simpa [List.getLastD_cons] using h

/-- Witness for `latch_coalesces_pair`: requests with deadlines 100 and 160,
the second sent at time 50, yield one energize at 0 and one de-energize at
160. -/
theorem latch_coalesces_pair_witness :
    latchRun 0 [⟨0, 100⟩, ⟨50, 160⟩]
      = [(0, LatchEvent.energize), (160, LatchEvent.deenergize)] := by
  have h := (latch_coalesces_pair 0 0 100 50 160 (by decide) (by decide)
    (by decide)).1
  simpa using h

/-- C7: a request whose deadline has already passed by the time the worker
can receive it (`max t r.arrival` is the earliest possible receive time) is
discarded: a queue of such requests produces no energize event at all. -/
theorem latch_stale_never_energizes (t : Nat) (reqs : List LatchReq)
    (h : ∀ r ∈ reqs, r.deadline < max t r.arrival) :
    latchRun t reqs = [] := by
  induction reqs generalizing t with
  | nil => rw [latchRun]
  | cons r rest ih =>
    rw [latchRun, if_pos (h r (by simp))]
    exact ih (max t r.arrival) fun r2 hr2 =>
      lt_of_lt_of_le (h r2 (by simp [hr2]))
        (max_le_max (le_max_left t r.arrival) (le_refl r2.arrival))

/-- Witness for `latch_stale_never_energizes`: a request sent at time 10
with deadline 5 never energizes the latch line. -/
theorem latch_stale_never_energizes_witness :
    latchRun 0 [⟨10, 5⟩] = [] :=
  latch_stale_never_energizes 0 [⟨10, 5⟩] (by decide)

theorem takeWhile_hw_prefix (l : List HwEvent) (rest : List RouteEvent) :
    ((l.map RouteEvent.hw ++ RouteEvent.lockRelease :: rest).takeWhile
        fun e => !(decide (e = RouteEvent.lockRelease))) = l.map RouteEvent.hw := by
  induction l with
  | nil => simp [List.takeWhile_cons]
  | cons a l2 ih => simp [List.takeWhile_cons, ih]

/-- C8 (counterexample): for a configuration with one slot, the claim that
`get_slots` reports the external 1-based slot index fails — the entry's
`number` is 0, not 1 (the code numbers entries with `enumerate()`, which is
0-based, while `drop` addresses the same slot as index 1). -/
theorem get_slots_number_counterexample :
    (get_slots allOkWorld cfgOwfs).map SlotStatus.number ≠ [1]
    ∧ (get_slots allOkWorld cfgOwfs).map SlotStatus.number = [0]
    ∧ (drop allOkWorld cfgOwfs defaultSched 1).result = Except.ok DropState.Success
    ∧ (drop allOkWorld cfgOwfs defaultSched 0).result
        = Except.error DropError.BadSlot := by
  refine ⟨by decide, by decide, by rfl, by rfl⟩

/-- C8 (amended): `get_slots` returns one entry per configured slot, in
configuration order, each carrying the slot's display identity, its 0-based
position in the configuration (not the 1-based external drop index), and
its presence reading. -/
theorem get_slots_entries (w : World) (config : ConfigData) :
    (get_slots w config).length = config.slots.length
    ∧ ∀ (k : Nat) (hk : k < config.slots.length),
        (get_slots w config)[k]? =
          some { id := slotDisplay (config.slots.get ⟨k, hk⟩)
                 number := (k : Int)
                 stocked := is_stocked w (config.slots.get ⟨k, hk⟩) } := by
  constructor
  · simp [get_slots]
  · intro k hk
    simp [get_slots, List.getElem?_map, List.getElem?_enum,
      List.getElem?_eq_getElem hk, List.get_eq_getElem]

/-- Witness for `get_slots_entries` on the one-slot one-wire config. -/
theorem get_slots_entries_witness :
    (get_slots allOkWorld cfgOwfs)[0]? =
      some { id := owfsSlotId, number := 0, stocked := true } := by
  have h := (get_slots_entries allOkWorld cfgOwfs).2 0 (by decide)
  simpa [cfgOwfs, slotDisplay, is_stocked, allOkWorld] using h

/-- C9 (counterexample): the claim that motor-facing actuation runs without
the configuration lock held fails: on a successful one-wire drop, motor
writes appear between the lock acquisition and its release. -/
theorem route_drop_lock_counterexample :
    ¬ (∀ e ∈ heldSection (route_drop allOkWorld cfgOwfs defaultSched 1),
        isMotorEvent e = false) := by
  decide

/-- C9 (amended): the `/drop` handler holds the process-wide configuration
lock across the whole transaction: the events performed while the lock is
held are exactly all hardware events of the drop, including every motor
actuation and waiting phase. -/
theorem route_drop_lock_held_across_drop (w : World) (config : ConfigData)
    (sched0 : SchedState) (slot : Nat) :
    heldSection (route_drop w config sched0 slot)
      = (drop w config sched0 slot).events.map RouteEvent.hw := by
  simp [route_drop, heldSection, List.dropWhile_cons, takeWhile_hw_prefix]

end Bubbler

